import Mathlib

/-!
Verification of the transition-state KPI engine of `transitions_kpi.py`.

The embedding models the core pipeline: the duration codec
(`sanitize_ticket_states`), the state classifier (`EDX_ENGINEERING_STATES`
membership), the per-record metric accumulation of `parse_jira_info`, and the
report formatter `print_time_spent`.  Python dictionaries are modelled as
association lists (`List (String × _)` with `List.lookup`); a sanitized
timedelta is modelled as its total number of seconds (`Int`); printed output is
collected into a `List String`; an uncaught Python exception (KeyError on a
missing state, ZeroDivisionError on a zero ticket count) is modelled with
`Except String`.
-/

namespace TransitionsKPI

/-- Duration of time, in whole seconds: the value of a sanitized timedelta. -/
abbrev Duration := Int

/-- The module-level constant EDX_ENGINEERING_STATES of transitions_kpi.py. -/
def EDX_ENGINEERING_STATES : List String :=
  ["Needs Triage",
   "Product Review",
   "Community Manager Review",
   "Awaiting Prioritization",
   "Engineering Review"]

/-- Membership test `state in EDX_ENGINEERING_STATES` performed by
`engineering_time_spent`; the spec names this operation
`is_engineering_state`. -/
def is_engineering_state (name : String) : Bool :=
  EDX_ENGINEERING_STATES.contains name

/-- `engineering_time_spent(state_dict, resolved_date)`: sums the durations of
the states of `state_dict` whose name is in EDX_ENGINEERING_STATES.  The
`resolved_date` argument is accepted and ignored, as in the source. -/
def engineering_time_spent (state_dict : List (String × Duration))
    (resolved_date : Int) : Duration :=
  state_dict.foldl
    (fun total st => if is_engineering_state st.1 then total + st.2 else total) 0

/-- `single_state_time_spent(state_dict, state, resolved_date)`: the raw
`state_dict[state]` lookup.  A missing key raises KeyError in Python, modelled
here by `none`.  The `resolved_date` argument is ignored, as in the source. -/
def single_state_time_spent (state_dict : List (String × Duration))
    (state : String) (resolved_date : Int) : Option Duration :=
  state_dict.lookup state

/-- The value of `datetime.timedelta(days=d, seconds=s)` in whole seconds. -/
def timedelta_of_days_seconds (days seconds : Int) : Duration :=
  days * 86400 + seconds

/-- `sanitize_ticket_states(state_dict)`: converts each serialized
`(days, seconds)` pair back into a timedelta. -/
def sanitize_ticket_states (state_dict : List (String × (Int × Int))) :
    List (String × Duration) :=
  state_dict.map (fun st => (st.1, timedelta_of_days_seconds st.2.1 st.2.2))

/-- Modelled from the spec: the serializer that produced the stored pairs
lives in the spider, outside the provided sources; the docstring of
`sanitize_ticket_states` records that a timedelta was written out as its
`days` and `seconds` components.  Python normalizes a timedelta so that
`0 ≤ seconds < 86400` with floor-division days, which is `Int.fdiv` and
`Int.emod` by 86400. -/
def timedelta_components (t : Duration) : Int × Int :=
  (Int.fdiv t 86400, Int.emod t 86400)

/-- One entry of states.json, the shape consumed by `parse_jira_info`.
`states` maps state names to serialized `(days, seconds)` pairs; `resolved`
is a completion timestamp (already parsed to a number). -/
structure Ticket where
  issue : String
  states : Option (List (String × (Int × Int)))
  error : Option String
  debug : Option String
  resolved : Option Int
deriving Repr, DecidableEq

/-- The accumulator variables of `parse_jira_info`. -/
structure KPIAccum where
  triage_time_spent : Duration
  eng_time_spent : Duration
  backlog_time : Duration
  product_time : Duration
  num_tickets : Nat
  backlog_tickets : Nat
  product_tickets : Nat
deriving Repr, DecidableEq

/-- All accumulators start at zero. -/
def init_accum : KPIAccum := ⟨0, 0, 0, 0, 0, 0, 0⟩

/-- The line printed for a ticket whose `error` value is truthy
(`ticket.get(..., False)` in Python: present and non-empty). -/
def error_lines (t : Ticket) : List String :=
  match t.error with
  | some e => if e ≠ "" then ["Error in ticket " ++ t.issue ++ ": " ++ e] else []
  | none => []

/-- The line printed for a truthy `debug` value when the debug flag is on. -/
def debug_lines (debug : Bool) (t : Ticket) : List String :=
  match t.debug with
  | some d =>
      if debug && d ≠ "" then ["Debug: ticket " ++ t.issue ++ ": " ++ d] else []
  | none => []

/-- The diagnostic printed for a ticket with no (or empty) state data. -/
def no_states_line (t : Ticket) : String :=
  "No states yet for newly-opened ticket " ++ t.issue

/-- The resolved-or-now substitution: `ticket.get(..., False)` falls back to
`datetime.datetime.now()`, modelled by the `now` parameter. -/
def resolved_or_now (now : Int) (t : Ticket) : Int :=
  match t.resolved with
  | some r => r
  | none => now

/-- The diagnostic lines printed by one iteration of the ticket loop of
`parse_jira_info`.  A `states` value that is absent or an empty map is falsy
in Python, taking the `elif debug or pretty` branch. -/
def ticket_lines (debug pretty : Bool) (t : Ticket) : List String :=
  let head := error_lines t ++ debug_lines debug t
  match t.states with
  | some (_ :: _) => head
  | _ => head ++ (if debug || pretty then [no_states_line t] else [])

/-- The accumulator update performed by one iteration of the ticket loop of
`parse_jira_info`: either the updated accumulators or the uncaught KeyError
raised by `single_state_time_spent` when a non-empty states map lacks the
key Needs Triage. -/
def ticket_accum (now : Int) (acc : KPIAccum) (t : Ticket) :
    Except String KPIAccum :=
  let resolved := resolved_or_now now t
  match t.states with
  | some (s0 :: srest) =>
    let states := sanitize_ticket_states (s0 :: srest)
    match single_state_time_spent states "Needs Triage" resolved with
    | none => .error ("KeyError: Needs Triage in ticket " ++ t.issue)
    | some triage =>
      let acc1 : KPIAccum :=
        { acc with
          triage_time_spent := acc.triage_time_spent + triage,
          eng_time_spent := engineering_time_spent states resolved,
          num_tickets := acc.num_tickets + 1 }
      let acc2 : KPIAccum :=
        match single_state_time_spent states "Awaiting Prioritization" resolved with
        | some v =>
            if v ≠ 0 then
              { acc1 with
                backlog_time := acc1.backlog_time + v,
                backlog_tickets := acc1.backlog_tickets + 1 }
            else acc1
        | none => acc1
      let acc3 : KPIAccum :=
        match single_state_time_spent states "Product Review" resolved with
        | some v =>
            if v ≠ 0 then
              { acc2 with
                product_time := acc2.product_time + v,
                product_tickets := acc2.product_tickets + 1 }
            else acc2
        | none => acc2
      .ok acc3
  | _ => .ok acc

/-- One iteration of the ticket loop of `parse_jira_info`: the diagnostic
lines it prints and the accumulator update it performs. -/
def process_ticket (debug pretty : Bool) (now : Int) (acc : KPIAccum)
    (t : Ticket) : List String × Except String KPIAccum :=
  (ticket_lines debug pretty t, ticket_accum now acc t)

/-- The ticket loop of `parse_jira_info`: fold `process_ticket` over the
ticket list, concatenating printed lines; an uncaught exception stops the
loop (output printed so far is kept, as on a real stderr trace). -/
def parse_tickets (debug pretty : Bool) (now : Int) :
    KPIAccum → List Ticket → List String × Except String KPIAccum
  | acc, [] => ([], .ok acc)
  | acc, t :: ts =>
    let pr := process_ticket debug pretty now acc t
    match pr.2 with
    | .error e => (pr.1, .error e)
    | .ok acc1 =>
      let rest := parse_tickets debug pretty now acc1 ts
      (pr.1 ++ rest.1, rest.2)

/-- `print_time_spent(time_spent, ticket_count, message, pretty)`: divides the
total by the count (a Python 2 timedelta-by-int floor division at microsecond
resolution) and renders the header plus one value line.  A zero count raises
ZeroDivisionError, modelled as `Except.error`. -/
def print_time_spent (time_spent : Duration) (ticket_count : Nat)
    (message : String) (pretty : Bool) : Except String (List String) :=
  if ticket_count = 0 then
    .error "ZeroDivisionError: integer division or modulo by zero"
  else
    let avg_us : Int := Int.fdiv (time_spent * 1000000) (ticket_count : Int)
    let days : Int := Int.fdiv avg_us 86400000000
    let secs : Int := Int.fdiv (Int.emod avg_us 86400000000) 1000000
    let hours : Int := Int.fdiv secs 3600
    let remainder : Int := Int.emod secs 3600
    let minutes : Int := Int.fdiv remainder 60
    let seconds : Int := Int.emod remainder 60
    let header :=
      "\n" ++ message ++ ", over " ++ toString ticket_count ++ " tickets"
    if pretty then
      .ok [header,
        "\t " ++ toString days ++ " days, " ++ toString hours ++ " hours, " ++
          toString minutes ++ " minutes, " ++ toString seconds ++ " seconds"]
    else
      .ok [header,
        "\t " ++ toString days ++ ":" ++ toString hours ++ ":" ++
          toString minutes ++ ":" ++ toString seconds]

/-- `parse_jira_info(debug, pretty)` on an in-memory ticket list: all lines
printed by a successful run (diagnostics in record order, then the four
metric blocks), or the first uncaught exception. -/
def parse_jira_info (debug pretty : Bool) (now : Int) (tickets : List Ticket) :
    Except String (List String) :=
  let folded := parse_tickets debug pretty now init_accum tickets
  match folded.2 with
  | .error e => .error e
  | .ok acc =>
    match print_time_spent acc.triage_time_spent acc.num_tickets
        "Average time spent in Needs Triage" pretty with
    | .error e => .error e
    | .ok l1 =>
      match print_time_spent acc.eng_time_spent acc.num_tickets
          "Average time spent in edX engineering states" pretty with
      | .error e => .error e
      | .ok l2 =>
        match print_time_spent acc.backlog_time acc.backlog_tickets
            "Average time spent in team backlog" pretty with
        | .error e => .error e
        | .ok l3 =>
          match print_time_spent acc.product_time acc.product_tickets
              "Average time spent in product review" pretty with
          | .error e => .error e
          | .ok l4 => .ok (folded.1 ++ l1 ++ l2 ++ l3 ++ l4)

/-- Spec-side contribution of one optional state to a `(total, count)`
accumulator pair, following the words of the specification: add the duration
and count the ticket exactly when the key is present with a non-zero
duration. -/
def spec_state_contribution (states : List (String × Duration)) (key : String) :
    Duration × Nat :=
  match states.lookup key with
  | some v => if v ≠ 0 then (v, 1) else (0, 0)
  | none => (0, 0)

/-- Two tickets that agree on every field except `resolved`. -/
def same_except_resolved (t1 t2 : Ticket) : Prop :=
  t1.issue = t2.issue ∧ t1.states = t2.states ∧
    t1.error = t2.error ∧ t1.debug = t2.debug

/-- Concrete input: a ticket that spent 100 seconds in Needs Triage. -/
def c1_ticket1 : Ticket :=
  ⟨"OSPR-1", some [("Needs Triage", (0, 100))], none, none, none⟩

/-- Concrete input: a ticket that spent 50 seconds in Needs Triage. -/
def c1_ticket2 : Ticket :=
  ⟨"OSPR-2", some [("Needs Triage", (0, 50))], none, none, none⟩

/-- Concrete input: a ticket with an error annotation and state data. -/
def c2_ticket : Ticket :=
  ⟨"OSPR-3", some [("Needs Triage", (0, 100))], some "scrape failed", none, none⟩

/-- Concrete input: a ticket whose error field holds the empty string. -/
def c4_ticket : Ticket := ⟨"OSPR-4", none, some "", none, none⟩

/-- Concrete input: a plain ticket with no state data. -/
def c5_ticket : Ticket := ⟨"OSPR-5", none, none, none, none⟩

/-- Concrete input: a non-empty states map lacking the key Needs Triage. -/
def c6_ticket : Ticket :=
  ⟨"OSPR-6", some [("Foo", (1, 0))], none, none, none⟩

-- ## Helper lemmas

/-- Sanitization only rewrites the values of the state map: a lookup on the
sanitized map is the decoded lookup on the raw map. -/
theorem lookup_sanitize (l : List (String × (Int × Int))) (k : String) :
    (sanitize_ticket_states l).lookup k =
      (l.lookup k).map (fun p => timedelta_of_days_seconds p.1 p.2) := by
  induction l with
  | nil => rfl
  | cons a as ih =>
    simp only [sanitize_ticket_states, List.map_cons, List.lookup] at ih ⊢
    cases h : k == a.1 <;> simp [h, ih]

/-- A debug diagnostic line is never equal to an error diagnostic line. -/
theorem debug_line_ne_error_line (i d j e : String) :
    "Debug: ticket " ++ i ++ ": " ++ d ≠ "Error in ticket " ++ j ++ ": " ++ e := by
  intro h
  have h2 := congrArg String.data h
  simp [String.data_append] at h2

/-- A no-states diagnostic line is never equal to an error diagnostic line. -/
theorem no_states_line_ne_error_line (i j e : String) :
    "No states yet for newly-opened ticket " ++ i ≠
      "Error in ticket " ++ j ++ ": " ++ e := by
  intro h
  have h2 := congrArg String.data h
  simp [String.data_append] at h2

-- ## Claim theorems

/-- Claim C1, evaluated at the failing input.  Folding two tickets that spent
100 and 50 seconds in Needs Triage leaves the engineering accumulator at 50,
the value computed from the last record alone, while the triage accumulator
(which does accumulate) reaches 150 and the shared ticket count reaches 2.
The source assigns the per-record engineering sum with `=` where its own
comment block and every sibling accumulator use `+=`, so the engineering
total claimed by the spec (100 + 50 = 150) is not what the code computes. -/
theorem C1_eng_total_not_accumulated :
    (parse_tickets false false 0 init_accum [c1_ticket1, c1_ticket2]).2 =
      Except.ok ⟨150, 50, 0, 0, 2, 0, 0⟩ ∧ (50 : Duration) ≠ 100 + 50 := by
  exact ⟨rfl, by decide⟩

/-- Claim C2, counterexample.  A record whose error field is present and whose
states map is non-empty is NOT excluded from aggregation: it moves the
accumulators away from their initial value (triage total 100, engineering 100,
shared count 1). -/
theorem C2_error_record_still_aggregated :
    (process_ticket false false 0 init_accum c2_ticket).2 =
      Except.ok ⟨100, 100, 0, 0, 1, 0, 0⟩ ∧
      (⟨100, 100, 0, 0, 1, 0, 0⟩ : KPIAccum) ≠ init_accum := by
  exact ⟨rfl, by decide⟩

/-- Claim C2, amended.  The error field never influences the accumulator
update: a record with any error value updates the four accumulator pairs
exactly as the same record without an error field would, so an error record
with a non-empty states map still contributes to aggregation and is only
additionally reported. -/
theorem C2_error_field_never_affects_accumulators (t : Ticket)
    (e : Option String) (now : Int) (acc : KPIAccum) :
    ticket_accum now acc { t with error := e } = ticket_accum now acc t := by
  obtain ⟨i, st, er, db, rs⟩ := t
  cases st with
  | none => rfl
  | some l =>
    cases l with
    | nil => rfl
    | cons s0 srest => rfl

/-- Claim C3, counterexample.  Folding the empty record sequence leaves every
count at 0, and the report step then crashes with an uncaught
ZeroDivisionError, the undiagnosed numeric error the claim rules out, instead
of a clear no-data result. -/
theorem C3_empty_run_raises_zero_division :
    parse_jira_info false false 0 [] =
      Except.error "ZeroDivisionError: integer division or modulo by zero" := rfl

/-- Claim C3, amended.  Formatting an accumulator whose count is 0 never
silently emits a 0:0:0:0 average: it always aborts, but by raising an
uncaught ZeroDivisionError rather than by surfacing a clear no-data-for-this-
metric result. -/
theorem C3_zero_count_always_raises (time_spent : Duration) (message : String)
    (pretty : Bool) :
    print_time_spent time_spent 0 message pretty =
      Except.error "ZeroDivisionError: integer division or modulo by zero" := rfl

/-- Claim C7.  For all integer pairs (d, s) with 0 ≤ s < 86400, the decoded
duration equals exactly d * 86400 + s seconds, and re-encoding it into its
days and seconds components recovers (d, s) exactly. -/
theorem C7_duration_roundtrip (d s : Int) (h0 : 0 ≤ s) (h1 : s < 86400) :
    timedelta_of_days_seconds d s = d * 86400 + s ∧
    timedelta_components (timedelta_of_days_seconds d s) = (d, s) := by
  refine ⟨rfl, ?_⟩
  unfold timedelta_components timedelta_of_days_seconds
  rw [Int.fdiv_eq_ediv _ (by norm_num)]
  simp only [Prod.mk.injEq]
  constructor
  · show (d * 86400 + s) / 86400 = d
    omega
  · show (d * 86400 + s) % 86400 = s
    omega

/-- Claim C7, witness at d = 2, s = 5. -/
theorem C7_duration_roundtrip_witness :
    timedelta_of_days_seconds 2 5 = 2 * 86400 + 5 ∧
    timedelta_components (timedelta_of_days_seconds 2 5) = (2, 5) :=
  C7_duration_roundtrip 2 5 (by decide) (by decide)

/-- Claim C9.  The engineering-state membership test is a pure total Boolean
function on strings returning true for exactly the five names of
EDX_ENGINEERING_STATES and false for every other string (so in particular for
the empty string and for any near-miss casing, which is a different string). -/
theorem C9_engineering_state_membership (s : String) :
    is_engineering_state s = true ↔
      (s = "Needs Triage" ∨ s = "Product Review" ∨
       s = "Community Manager Review" ∨ s = "Awaiting Prioritization" ∨
       s = "Engineering Review") := by
  simp [is_engineering_state, EDX_ENGINEERING_STATES, List.contains]

/-- Claim C4, counterexample.  A ticket whose error field is present but holds
the empty string produces NO diagnostic line at all (Python truthiness of
`ticket.get` drops it), refuting "exactly one diagnostic line for any string
value of the error field". -/
theorem C4_empty_error_emits_no_line :
    (process_ticket false false 0 init_accum c4_ticket).1 = [] := rfl

/-- Claim C4, amended.  A record whose error field is present with a
NON-EMPTY string produces exactly one diagnostic line containing the issue id
and the error text, regardless of the debug and pretty flags; a present but
empty error string produces none. -/
theorem C4_truthy_error_exactly_one_line (t : Ticket) (e : String)
    (he : t.error = some e) (hne : e ≠ "") (debug pretty : Bool) (now : Int)
    (acc : KPIAccum) :
    ((process_ticket debug pretty now acc t).1).count
      ("Error in ticket " ++ t.issue ++ ": " ++ e) = 1 := by
  obtain ⟨i, st, er, db, rs⟩ := t
  have he2 : er = some e := he
  subst he2
  have herr : error_lines ⟨i, st, some e, db, rs⟩ =
      ["Error in ticket " ++ i ++ ": " ++ e] := by
    simp [error_lines, hne]
  have hdbg : (debug_lines debug ⟨i, st, some e, db, rs⟩).count
      ("Error in ticket " ++ i ++ ": " ++ e) = 0 := by
    cases db with
    | none => rfl
    | some d =>
      simp only [debug_lines]
      split
      · simp [List.count_cons, (debug_line_ne_error_line i d i e).symm]
      · rfl
  simp only [process_ticket, ticket_lines]
  cases st with
  | none =>
    simp [List.count_append, herr, hdbg]
    split
    · simp [List.count_cons, no_states_line,
        (no_states_line_ne_error_line i i e).symm]
    · rfl
  | some l =>
    cases l with
    | nil =>
      simp [List.count_append, herr, hdbg]
      split
      · simp [List.count_cons, no_states_line,
          (no_states_line_ne_error_line i i e).symm]
      · rfl
    | cons s0 srest => simp [List.count_append, herr, hdbg]

/-- Claim C4, witness: a ticket with a non-empty error text yields exactly one
error diagnostic even with debug and pretty both on. -/
theorem C4_truthy_error_exactly_one_line_witness :
    ((process_ticket true true 0 init_accum
        ⟨"OSPR-9", none, some "boom", some "note", none⟩).1).count
      ("Error in ticket " ++ "OSPR-9" ++ ": " ++ "boom") = 1 :=
  C4_truthy_error_exactly_one_line
    ⟨"OSPR-9", none, some "boom", some "note", none⟩ "boom" rfl (by decide)
    true true 0 init_accum

/-- Claim C5, counterexample.  With the debug flag DISABLED but pretty
enabled, a states-absent ticket still produces the no-states diagnostic line,
so the line is not controlled by the debug flag alone. -/
theorem C5_pretty_alone_emits_no_states_line :
    (process_ticket false true 0 init_accum c5_ticket).1 =
      ["No states yet for newly-opened ticket OSPR-5"] := rfl

/-- Claim C5, amended.  A record whose states field is absent contributes to
none of the four accumulators, and its no-states diagnostic line is emitted
exactly when the debug flag OR the pretty flag is enabled (so also under
pretty alone), and not when both are disabled. -/
theorem C5_no_states_contributes_nothing (t : Ticket) (h : t.states = none)
    (debug pretty : Bool) (now : Int) (acc : KPIAccum) :
    (process_ticket debug pretty now acc t).2 = Except.ok acc ∧
    (process_ticket debug pretty now acc t).1 =
      (error_lines t ++ debug_lines debug t) ++
        (if debug || pretty then [no_states_line t] else []) := by
  obtain ⟨i, st, er, db, rs⟩ := t
  have h2 : st = none := h
  subst h2
  exact ⟨rfl, rfl⟩

/-- Claim C5, witness: a plain states-absent ticket under the debug flag. -/
theorem C5_no_states_contributes_nothing_witness :
    (process_ticket true false 0 init_accum c5_ticket).2 =
      Except.ok init_accum ∧
    (process_ticket true false 0 init_accum c5_ticket).1 =
      (error_lines c5_ticket ++ debug_lines true c5_ticket) ++
        (if true || false then [no_states_line c5_ticket] else []) :=
  C5_no_states_contributes_nothing c5_ticket rfl true false 0 init_accum

/-- Claim C6.  A record whose states map is non-empty but lacks the key
Needs Triage makes the triage step raise an uncaught KeyError: the record
step returns the error instead of an updated accumulator, and the whole fold
aborts with that error, rather than silently contributing zero or being
skipped. -/
theorem C6_missing_needs_triage_fails_loudly (t : Ticket)
    (l : List (String × (Int × Int))) (hs : t.states = some l) (hne : l ≠ [])
    (hmiss : l.lookup "Needs Triage" = none) (debug pretty : Bool) (now : Int)
    (acc : KPIAccum) (rest : List Ticket) :
    (process_ticket debug pretty now acc t).2 =
      Except.error ("KeyError: Needs Triage in ticket " ++ t.issue) ∧
    (parse_tickets debug pretty now acc (t :: rest)).2 =
      Except.error ("KeyError: Needs Triage in ticket " ++ t.issue) := by
  obtain ⟨i, st, er, db, rs⟩ := t
  have hs2 : st = some l := hs
  subst hs2
  cases l with
  | nil => exact absurd rfl hne
  | cons s0 srest =>
    have hm2 : (sanitize_ticket_states (s0 :: srest)).lookup "Needs Triage" =
        none := by
      rw [lookup_sanitize, hmiss]
      rfl
    have hp : ticket_accum now acc ⟨i, some (s0 :: srest), er, db, rs⟩ =
        Except.error ("KeyError: Needs Triage in ticket " ++ i) := by
      simp [ticket_accum, single_state_time_spent, hm2]
    refine ⟨hp, ?_⟩
    simp [parse_tickets, process_ticket, hp]

/-- Claim C6, witness: a ticket whose only state is Foo aborts the fold. -/
theorem C6_missing_needs_triage_fails_loudly_witness :
    (process_ticket false false 0 init_accum c6_ticket).2 =
      Except.error ("KeyError: Needs Triage in ticket " ++ c6_ticket.issue) ∧
    (parse_tickets false false 0 init_accum [c6_ticket]).2 =
      Except.error ("KeyError: Needs Triage in ticket " ++ c6_ticket.issue) :=
  C6_missing_needs_triage_fails_loudly c6_ticket [("Foo", (1, 0))] rfl
    (List.cons_ne_nil _ _) rfl false false 0 init_accum []

/-- Claim C8.  For a successfully processed record with a non-empty states
map, the backlog pair gains the Awaiting Prioritization duration and one
count exactly when that key is present with a non-zero duration, and the
product pair gains the Product Review duration and one count exactly when
that key is present with a non-zero duration; a missing key or a zero
duration leaves the corresponding pair unchanged. -/
theorem C8_backlog_product_contribution (t : Ticket)
    (l : List (String × (Int × Int))) (hs : t.states = some l) (hne : l ≠ [])
    (tr : Duration)
    (htr : (sanitize_ticket_states l).lookup "Needs Triage" = some tr)
    (debug pretty : Bool) (now : Int) (acc : KPIAccum) :
    ∃ acc2 : KPIAccum,
      (process_ticket debug pretty now acc t).2 = Except.ok acc2 ∧
      acc2.backlog_time = acc.backlog_time +
        (spec_state_contribution (sanitize_ticket_states l)
          "Awaiting Prioritization").1 ∧
      acc2.backlog_tickets = acc.backlog_tickets +
        (spec_state_contribution (sanitize_ticket_states l)
          "Awaiting Prioritization").2 ∧
      acc2.product_time = acc.product_time +
        (spec_state_contribution (sanitize_ticket_states l)
          "Product Review").1 ∧
      acc2.product_tickets = acc.product_tickets +
        (spec_state_contribution (sanitize_ticket_states l)
          "Product Review").2 := by
  obtain ⟨i, st, er, db, rs⟩ := t
  have hs2 : st = some l := hs
  subst hs2
  cases l with
  | nil => exact absurd rfl hne
  | cons s0 srest =>
    simp only [process_ticket, ticket_accum, single_state_time_spent, htr]
    cases hA : (sanitize_ticket_states (s0 :: srest)).lookup
        "Awaiting Prioritization" with
    | none =>
      cases hP : (sanitize_ticket_states (s0 :: srest)).lookup
          "Product Review" with
      | none =>
        refine ⟨_, rfl, ?_, ?_, ?_, ?_⟩ <;>
          simp [spec_state_contribution, hA, hP]
      | some w =>
        by_cases hw : w = 0 <;>
          refine ⟨_, rfl, ?_, ?_, ?_, ?_⟩ <;>
            simp [spec_state_contribution, hA, hP, hw]
    | some v =>
      by_cases hv : v = 0
      · cases hP : (sanitize_ticket_states (s0 :: srest)).lookup
            "Product Review" with
        | none =>
          refine ⟨_, rfl, ?_, ?_, ?_, ?_⟩ <;>
            simp [spec_state_contribution, hA, hP, hv]
        | some w =>
          by_cases hw : w = 0 <;>
            refine ⟨_, rfl, ?_, ?_, ?_, ?_⟩ <;>
              simp [spec_state_contribution, hA, hP, hv, hw]
      · cases hP : (sanitize_ticket_states (s0 :: srest)).lookup
            "Product Review" with
        | none =>
          refine ⟨_, rfl, ?_, ?_, ?_, ?_⟩ <;>
            simp [spec_state_contribution, hA, hP, hv]
        | some w =>
          by_cases hw : w = 0 <;>
            refine ⟨_, rfl, ?_, ?_, ?_, ?_⟩ <;>
              simp [spec_state_contribution, hA, hP, hv, hw]

/-- Claim C8, witness: a ticket with 60 seconds of Needs Triage, 30 seconds
of Awaiting Prioritization, and a present-but-zero Product Review entry. -/
theorem C8_backlog_product_contribution_witness :
    ∃ acc2 : KPIAccum,
      (process_ticket false false 0 init_accum
        ⟨"OSPR-8",
          some [("Needs Triage", (0, 60)), ("Awaiting Prioritization", (0, 30)),
            ("Product Review", (0, 0))], none, none, none⟩).2 =
        Except.ok acc2 ∧
      acc2.backlog_time = init_accum.backlog_time +
        (spec_state_contribution
          (sanitize_ticket_states
            [("Needs Triage", (0, 60)), ("Awaiting Prioritization", (0, 30)),
              ("Product Review", (0, 0))]) "Awaiting Prioritization").1 ∧
      acc2.backlog_tickets = init_accum.backlog_tickets +
        (spec_state_contribution
          (sanitize_ticket_states
            [("Needs Triage", (0, 60)), ("Awaiting Prioritization", (0, 30)),
              ("Product Review", (0, 0))]) "Awaiting Prioritization").2 ∧
      acc2.product_time = init_accum.product_time +
        (spec_state_contribution
          (sanitize_ticket_states
            [("Needs Triage", (0, 60)), ("Awaiting Prioritization", (0, 30)),
              ("Product Review", (0, 0))]) "Product Review").1 ∧
      acc2.product_tickets = init_accum.product_tickets +
        (spec_state_contribution
          (sanitize_ticket_states
            [("Needs Triage", (0, 60)), ("Awaiting Prioritization", (0, 30)),
              ("Product Review", (0, 0))]) "Product Review").2 :=
  C8_backlog_product_contribution
    ⟨"OSPR-8",
      some [("Needs Triage", (0, 60)), ("Awaiting Prioritization", (0, 30)),
        ("Product Review", (0, 0))], none, none, none⟩
    [("Needs Triage", (0, 60)), ("Awaiting Prioritization", (0, 30)),
      ("Product Review", (0, 0))] rfl (List.cons_ne_nil _ _) 60 rfl
    false false 0 init_accum

/-- Changing only the resolved field (and the wall clock) never changes the
outcome of one iteration of the ticket loop. -/
theorem process_ticket_resolved_irrelevant (debug pretty : Bool)
    (now1 now2 : Int) (acc : KPIAccum) (t1 t2 : Ticket)
    (h : same_except_resolved t1 t2) :
    process_ticket debug pretty now1 acc t1 =
      process_ticket debug pretty now2 acc t2 := by
  obtain ⟨i1, st1, er1, db1, rs1⟩ := t1
  obtain ⟨i2, st2, er2, db2, rs2⟩ := t2
  obtain ⟨h1, h2, h3, h4⟩ := h
  have g1 : i1 = i2 := h1
  have g2 : st1 = st2 := h2
  have g3 : er1 = er2 := h3
  have g4 : db1 = db2 := h4
  subst g1
  subst g2
  subst g3
  subst g4
  cases st1 with
  | none => rfl
  | some l =>
    cases l with
    | nil => rfl
    | cons s0 srest => rfl

/-- Changing only the resolved fields (and the wall clock) never changes the
outcome of the whole ticket fold, from any starting accumulator. -/
theorem parse_tickets_resolved_irrelevant (debug pretty : Bool)
    (now1 now2 : Int) (ts1 ts2 : List Ticket)
    (h : List.Forall₂ same_except_resolved ts1 ts2) :
    ∀ acc, parse_tickets debug pretty now1 acc ts1 =
      parse_tickets debug pretty now2 acc ts2 := by
  induction h with
  | nil => intro acc; rfl
  | cons hrel hall ih =>
    intro acc
    simp only [parse_tickets]
    rw [process_ticket_resolved_irrelevant debug pretty now1 now2 acc _ _ hrel]
    cases hpr : (process_ticket debug pretty now2 acc _).2 with
    | error e => simp [hpr]
    | ok acc1 => simp [hpr, ih acc1]

/-- Claim C10.  Two runs over record sequences that agree on everything but
the resolved fields (and over different wall-clock readings for the
resolved-or-now substitution) produce identical accumulators and identical
report output: no metric computation ever uses the resolved date. -/
theorem C10_resolved_never_affects_output (ts1 ts2 : List Ticket)
    (h : List.Forall₂ same_except_resolved ts1 ts2) (debug pretty : Bool)
    (now1 now2 : Int) :
    parse_tickets debug pretty now1 init_accum ts1 =
      parse_tickets debug pretty now2 init_accum ts2 ∧
    parse_jira_info debug pretty now1 ts1 =
      parse_jira_info debug pretty now2 ts2 := by
  have hft := parse_tickets_resolved_irrelevant debug pretty now1 now2 ts1 ts2
    h init_accum
  refine ⟨hft, ?_⟩
  simp only [parse_jira_info, hft]

/-- Claim C10, witness: one resolved and one unresolved copy of a ticket,
folded under different wall clocks. -/
theorem C10_resolved_never_affects_output_witness :
    parse_tickets false false 0 init_accum
        [⟨"A", some [("Needs Triage", (0, 7))], none, none, some 99⟩] =
      parse_tickets false false 1 init_accum
        [⟨"A", some [("Needs Triage", (0, 7))], none, none, none⟩] ∧
    parse_jira_info false false 0
        [⟨"A", some [("Needs Triage", (0, 7))], none, none, some 99⟩] =
      parse_jira_info false false 1
        [⟨"A", some [("Needs Triage", (0, 7))], none, none, none⟩] :=
  C10_resolved_never_affects_output _ _
    (List.Forall₂.cons ⟨rfl, rfl, rfl, rfl⟩ List.Forall₂.nil) false false 0 1

end TransitionsKPI
